import Mathlib

/-!
Verification of the controller-runtime-common TLS security-profile watcher
and the envtest path helpers.

The watcher core (profile resolver, canonical-specification comparator,
watcher state and reconciliation entry point) is exercised by the ginkgo
test suite shipped with the repository; the engine itself is modelled here
from the design document, faithful to its words, and the tests' scenarios
are re-proved against that model.  The envtest helpers
(GetGoModuleDirectory, GetCRDManifestsPath) are embedded directly from
pkg/testutils/envtest/envtest.go, with the external effects (the go tool
invocation, the filesystem stat) abstracted as an explicit environment.
-/

namespace ControllerRuntimeCommon

/-- Minimum TLS protocol version identifiers, the small closed enumeration
used by the canonical specification (mirrors configv1.TLSProtocolVersion). -/
inductive TLSProtocolVersion
  | VersionTLS10
  | VersionTLS11
  | VersionTLS12
  | VersionTLS13
deriving DecidableEq, Repr

/-- Canonical specification: an ordered sequence of cipher identifiers and a
minimum protocol version (mirrors configv1.TLSProfileSpec). -/
structure TLSProfileSpec where
  ciphers : List String
  minTLSVersion : TLSProtocolVersion
deriving DecidableEq, Repr

/-- Modelled from the spec: the preset lookup table is static external data
(a mapping from the closed preset enumeration to specifications); the
values follow the openshift Modern profile referenced by the tests. -/
def ModernTLSProfileSpec : TLSProfileSpec :=
  { ciphers :=
      ["TLS_AES_128_GCM_SHA256", "TLS_AES_256_GCM_SHA384",
       "TLS_CHACHA20_POLY1305_SHA256"]
    minTLSVersion := .VersionTLS13 }

/-- Modelled from the spec: static external preset data, the openshift
Intermediate profile referenced by the tests (minimum version TLS 1.2). -/
def IntermediateTLSProfileSpec : TLSProfileSpec :=
  { ciphers :=
      ["TLS_AES_128_GCM_SHA256", "TLS_AES_256_GCM_SHA384",
       "TLS_CHACHA20_POLY1305_SHA256", "ECDHE-ECDSA-AES128-GCM-SHA256",
       "ECDHE-RSA-AES128-GCM-SHA256", "ECDHE-ECDSA-AES256-GCM-SHA384",
       "ECDHE-RSA-AES256-GCM-SHA384", "ECDHE-ECDSA-CHACHA20-POLY1305",
       "ECDHE-RSA-CHACHA20-POLY1305", "DHE-RSA-AES128-GCM-SHA256",
       "DHE-RSA-AES256-GCM-SHA384"]
    minTLSVersion := .VersionTLS12 }

/-- Modelled from the spec: static external preset data, the openshift Old
profile (minimum version TLS 1.0). -/
def OldTLSProfileSpec : TLSProfileSpec :=
  { ciphers :=
      ["TLS_AES_128_GCM_SHA256", "TLS_AES_256_GCM_SHA384",
       "TLS_CHACHA20_POLY1305_SHA256", "ECDHE-ECDSA-AES128-GCM-SHA256",
       "ECDHE-RSA-AES128-GCM-SHA256", "ECDHE-ECDSA-AES256-GCM-SHA384",
       "ECDHE-RSA-AES256-GCM-SHA384", "ECDHE-ECDSA-CHACHA20-POLY1305",
       "ECDHE-RSA-CHACHA20-POLY1305", "DHE-RSA-AES128-GCM-SHA256",
       "DHE-RSA-AES256-GCM-SHA384", "DHE-RSA-CHACHA20-POLY1305",
       "ECDHE-ECDSA-AES128-SHA256", "ECDHE-RSA-AES128-SHA256",
       "ECDHE-ECDSA-AES128-SHA", "ECDHE-RSA-AES128-SHA",
       "ECDHE-ECDSA-AES256-SHA384", "ECDHE-RSA-AES256-SHA384",
       "ECDHE-ECDSA-AES256-SHA", "ECDHE-RSA-AES256-SHA",
       "DHE-RSA-AES128-SHA256", "DHE-RSA-AES256-SHA256",
       "AES128-GCM-SHA256", "AES256-GCM-SHA384", "AES128-SHA256",
       "AES256-SHA256", "AES128-SHA", "AES256-SHA", "DES-CBC3-SHA"]
    minTLSVersion := .VersionTLS10 }

/-- Modelled from the spec: the static lookup table from the known preset
identifiers (the closed enumeration Old, Intermediate, Modern) to their
canonical specifications; any other identifier is absent from the table. -/
def TLSProfiles (name : String) : Option TLSProfileSpec :=
  if name = "Old" then some OldTLSProfileSpec
  else if name = "Intermediate" then some IntermediateTLSProfileSpec
  else if name = "Modern" then some ModernTLSProfileSpec
  else none

/-- Profile selector as observed on the resource: a named preset or an
explicit custom specification; the absent case is the surrounding
Option being none (mirrors a nil *configv1.TLSSecurityProfile). -/
inductive TLSSecurityProfile
  | preset (name : String)
  | custom (spec : TLSProfileSpec)
deriving DecidableEq, Repr

/-- Resolution failure taxonomy for the profile resolver. -/
inductive ResolutionError
  | unknownPreset (name : String)
deriving DecidableEq, Repr

/-- Modelled from the spec: the profile resolver (the repository function
GetTLSProfileSpec, not shipped under the sources here, only exercised by
its tests).  An absent selector resolves to the Intermediate default; a
named preset resolves through the static table and fails with
UnknownPreset for identifiers outside it; an explicit override resolves
to its own fields verbatim. -/
def GetTLSProfileSpec : Option TLSSecurityProfile → Except ResolutionError TLSProfileSpec
  | none => .ok IntermediateTLSProfileSpec
  | some (.preset name) =>
      match TLSProfiles name with
      | some s => .ok s
      | none => .error (.unknownPreset name)
  | some (.custom s) => .ok s

/-- Modelled from the spec: the canonical-specification comparator; equality
holds iff the minimum-version fields are identical and the cipher
sequences are identical element-for-element in order, independent of the
selector form that produced each side. -/
def tlsSpecEqual (a b : TLSProfileSpec) : Bool :=
  decide (a.minTLSVersion = b.minTLSVersion) && decide (a.ciphers = b.ciphers)

/-- Watcher state paired with the trace of callback invocations: the
currently known canonical specification and, in order, every
(previous, current) pair delivered to the registered callback. -/
structure WatcherState where
  current : TLSProfileSpec
  events : List (TLSProfileSpec × TLSProfileSpec)
deriving DecidableEq, Repr

/-- Modelled from the spec: watcher construction, seeded once from the
caller-supplied initial canonical specification, before any event. -/
def initWatcher (init : TLSProfileSpec) : WatcherState :=
  { current := init, events := [] }

/-- Modelled from the spec: the read-compare-write critical section of the
reconciliation entry point (steps 3 to 5), taken as a single atomic
action as the concurrency section mandates: snapshot the previous value,
compare with the resolved next value, and when they differ swap the
state and record the (previous, next) notification. -/
def criticalSection (next : TLSProfileSpec) (st : WatcherState) : WatcherState :=
  if tlsSpecEqual st.current next then st
  else { current := next, events := st.events ++ [(st.current, next)] }

/-- Outcome of fetching the watched singleton resource, as seen by one
reconciliation cycle. -/
inductive FetchResult
  | absent
  | fetchFailure
  | found (sel : Option TLSSecurityProfile)
deriving DecidableEq, Repr

/-- What a reconciliation cycle reports back to the hosting framework:
success, or an error eligible for the framework retry-with-backoff. -/
inductive ReconcileOutcome
  | success
  | failure
deriving DecidableEq, Repr

/-- Modelled from the spec: the reconciliation entry point.  A missing
resource is a quiet success; a fetch failure is surfaced for retry; a
resolution error is surfaced for retry without touching state; otherwise
the critical section compares and conditionally swaps and notifies. -/
def reconcile (st : WatcherState) : FetchResult → WatcherState × ReconcileOutcome
  | .absent => (st, .success)
  | .fetchFailure => (st, .failure)
  | .found sel =>
      match GetTLSProfileSpec sel with
      | .error _ => (st, .failure)
      | .ok next => (criticalSection next st, .success)

/-- Runs the reconciliation entry point over a sequence of observed fetch
results, threading the watcher state. -/
def reconcileSeq (st : WatcherState) : List FetchResult → WatcherState
  | [] => st
  | f :: fs => reconcileSeq (reconcile st f).1 fs

/-- The event trace is a chain: starting from specification a, each recorded
event departs from the value the previous one arrived at, every event is
a real change under the comparator, and the chain ends at b. -/
def chainFrom (a : TLSProfileSpec) : List (TLSProfileSpec × TLSProfileSpec) → TLSProfileSpec → Prop
  | [], b => b = a
  | e :: rest, b => e.1 = a ∧ tlsSpecEqual e.1 e.2 = false ∧ chainFrom e.2 rest b

/-! Embedding of pkg/testutils/envtest/envtest.go.  The two external
effects the file performs, running the go tool and stat-ing a path, are
abstracted as an environment record; everything else follows the Go
source line by line. -/

/-- The external world as envtest.go observes it: the output of the go
list command for a module (none when the command fails), and whether a
path exists on the filesystem (the os.Stat call succeeding). -/
structure GoEnv where
  goListDir : String → Option String
  pathExists : String → Bool

/-- filepath.Join from the Go standard library, modelled as joining the
non-empty elements with the separator; the lexical path cleaning it also
performs is abstracted away, as no property here depends on it. -/
def filepathJoin (elems : List String) : String :=
  String.intercalate "/" (elems.filter (fun e => ¬ e = ""))

/-- strings.TrimSpace from the Go standard library: drop the leading and
trailing whitespace characters of the string. -/
def goTrimSpace (s : String) : String :=
  String.mk (((s.data.dropWhile Char.isWhitespace).reverse.dropWhile
    Char.isWhitespace).reverse)

/-- GetGoModuleDirectory from envtest.go: run go list -m for the module,
fail if the command fails, trim whitespace from its output, fail if the
trimmed directory is empty, and otherwise return it. -/
def GetGoModuleDirectory (env : GoEnv) (module : String) : Except String String :=
  match env.goListDir module with
  | none => .error ("failed to get module directory for " ++ module)
  | some output =>
      let moduleDir := goTrimSpace output
      if moduleDir = "" then
        .error ("empty module directory returned for " ++ module)
      else
        .ok moduleDir

/-- GetCRDManifestsPath from envtest.go: resolve the module directory,
propagate its error, join the path segments onto it, and fail if the
joined path does not exist on the filesystem. -/
def GetCRDManifestsPath (env : GoEnv) (module : String)
    (pathSegments : List String) : Except String String :=
  match GetGoModuleDirectory env module with
  | .error e => .error e
  | .ok moduleDir =>
      let path := filepathJoin (moduleDir :: pathSegments)
      if env.pathExists path then .ok path
      else .error ("path " ++ path ++ " does not exist")

/-- The custom specification used by the switch-to-custom test scenario:
two cipher identifiers and a TLS 1.3 minimum version. -/
def customTLS13Spec : TLSProfileSpec :=
  { ciphers := ["TLS_AES_128_GCM_SHA256", "TLS_AES_256_GCM_SHA384"]
    minTLSVersion := .VersionTLS13 }

/-- A concrete environment for exercising the envtest helpers: the go tool
reports a module directory padded with whitespace, and every path exists. -/
def sampleGoEnv : GoEnv :=
  { goListDir := fun _ => some "  /cache/mod  ", pathExists := fun _ => true }

/-! Theorems. -/

/-- The comparator is reflexive: every specification equals itself. -/
theorem tlsSpecEqual_refl (a : TLSProfileSpec) : tlsSpecEqual a a = true := by
  simp [tlsSpecEqual]

/-- Chains compose: a chain from a to b followed by a chain from b to c is
a chain from a to c over the concatenated trace. -/
theorem chainFrom_append {a b c : TLSProfileSpec}
    {l1 l2 : List (TLSProfileSpec × TLSProfileSpec)}
    (h1 : chainFrom a l1 b) (h2 : chainFrom b l2 c) :
    chainFrom a (l1 ++ l2) c := by
  induction l1 generalizing a with
  | nil =>
      rw [List.nil_append]
      cases h1
      exact h2
  | cons e rest ih =>
      obtain ⟨he, hne, hrest⟩ := h1
      exact ⟨he, hne, ih hrest⟩

/-- One reconciliation cycle appends a chain segment: the events grow by a
suffix that chains from the pre-state current value to the post-state
current value, every appended event being a real change. -/
theorem reconcile_step_chain (st : WatcherState) (f : FetchResult) :
    ∃ d, (reconcile st f).1.events = st.events ++ d
      ∧ chainFrom st.current d (reconcile st f).1.current := by
  cases f with
  | absent => exact ⟨[], by simp [reconcile], rfl⟩
  | fetchFailure => exact ⟨[], by simp [reconcile], rfl⟩
  | found sel =>
      cases hres : GetTLSProfileSpec sel with
      | error e => exact ⟨[], by simp [reconcile, hres], by simp [reconcile, hres, chainFrom]⟩
      | ok next =>
          by_cases h : tlsSpecEqual st.current next = true
          · exact ⟨[], by simp [reconcile, hres, criticalSection, h],
              by simp [reconcile, hres, criticalSection, h, chainFrom]⟩
          · rw [Bool.not_eq_true] at h
            refine ⟨[(st.current, next)], ?_, ?_⟩
            · simp [reconcile, hres, criticalSection, h]
            · simp only [reconcile, hres, criticalSection, h]
              exact ⟨rfl, h, by simp [chainFrom]⟩

/-- Running any fetch sequence appends a chain segment from the pre-state
current value to the post-state current value. -/
theorem reconcileSeq_chain (fs : List FetchResult) : ∀ st : WatcherState,
    ∃ d, (reconcileSeq st fs).events = st.events ++ d
      ∧ chainFrom st.current d (reconcileSeq st fs).current := by
  induction fs with
  | nil => exact fun st => ⟨[], by simp [reconcileSeq], rfl⟩
  | cons f fs ih =>
      intro st
      obtain ⟨d1, he1, hc1⟩ := reconcile_step_chain st f
      obtain ⟨d2, he2, hc2⟩ := ih (reconcile st f).1
      refine ⟨d1 ++ d2, ?_, ?_⟩
      · show (reconcileSeq (reconcile st f).1 fs).events = st.events ++ (d1 ++ d2)
        rw [he2, he1, List.append_assoc]
      · show chainFrom st.current (d1 ++ d2) (reconcileSeq (reconcile st f).1 fs).current
        exact chainFrom_append hc1 hc2

/-- C1: for three selector states observed in sequence by the reconciliation
entry point, whose resolutions pairwise differ at the two transitions, the
callback is invoked exactly twice, with payloads (resolve S0, resolve S1)
then (resolve S1, resolve S2), in that order; the first invocation's
current value is the second invocation's previous value. -/
theorem tls_exactly_once_per_transition
    (s0 s1 s2 : Option TLSSecurityProfile) (r0 r1 r2 : TLSProfileSpec)
    (h0 : GetTLSProfileSpec s0 = .ok r0)
    (h1 : GetTLSProfileSpec s1 = .ok r1)
    (h2 : GetTLSProfileSpec s2 = .ok r2)
    (h01 : tlsSpecEqual r0 r1 = false)
    (h12 : tlsSpecEqual r1 r2 = false) :
    (reconcileSeq (initWatcher r0) [.found s0, .found s1, .found s2]).events
      = [(r0, r1), (r1, r2)] := by
  simp [reconcileSeq, reconcile, h0, h1, h2, initWatcher, criticalSection,
    tlsSpecEqual_refl, h01, h12]

/-- Witness for C1: the round trip Intermediate to Modern and back, seeded
from the Intermediate resolution, delivers exactly the two transitions,
the first current value equalling the second previous value. -/
theorem tls_exactly_once_per_transition_witness :
    (reconcileSeq (initWatcher IntermediateTLSProfileSpec)
        [.found (some (.preset "Intermediate")), .found (some (.preset "Modern")),
         .found (some (.preset "Intermediate"))]).events
      = [(IntermediateTLSProfileSpec, ModernTLSProfileSpec),
         (ModernTLSProfileSpec, IntermediateTLSProfileSpec)] :=
  tls_exactly_once_per_transition
    (some (.preset "Intermediate")) (some (.preset "Modern"))
    (some (.preset "Intermediate"))
    IntermediateTLSProfileSpec ModernTLSProfileSpec IntermediateTLSProfileSpec
    (by rfl) (by rfl) (by rfl) (by decide) (by decide)

/-- C2: comparator equality holds iff the minimum-version fields are equal
and the cipher sequences are equal in order; it ignores provenance: a
custom selector carrying exactly a preset's resolved fields resolves to
the same specification as the preset, the two compare equal, and
switching between the two representations in either direction is a no-op
that never invokes the callback. -/
theorem tls_comparator_semantic_equality
    (a b s : TLSProfileSpec) (name : String)
    (ev : List (TLSProfileSpec × TLSProfileSpec))
    (hp : TLSProfiles name = some s) :
    (tlsSpecEqual a b = true
      ↔ a.minTLSVersion = b.minTLSVersion ∧ a.ciphers = b.ciphers)
    ∧ GetTLSProfileSpec (some (.preset name)) = .ok s
    ∧ GetTLSProfileSpec (some (.custom s)) = .ok s
    ∧ tlsSpecEqual s s = true
    ∧ reconcile ⟨s, ev⟩ (.found (some (.custom s))) = (⟨s, ev⟩, .success)
    ∧ reconcile ⟨s, ev⟩ (.found (some (.preset name))) = (⟨s, ev⟩, .success) := by
  refine ⟨?_, ?_, rfl, tlsSpecEqual_refl s, ?_, ?_⟩
  · simp [tlsSpecEqual]
  · simp [GetTLSProfileSpec, hp]
  · simp [reconcile, GetTLSProfileSpec, criticalSection, tlsSpecEqual_refl]
  · simp [reconcile, GetTLSProfileSpec, hp, criticalSection, tlsSpecEqual_refl]

/-- Witness for C2: instantiated at the Intermediate preset and a custom
representation carrying exactly its resolved fields, with the comparator
clause exercised on the Old and Modern specifications. -/
theorem tls_comparator_semantic_equality_witness :
    (tlsSpecEqual OldTLSProfileSpec ModernTLSProfileSpec = true
      ↔ OldTLSProfileSpec.minTLSVersion = ModernTLSProfileSpec.minTLSVersion
        ∧ OldTLSProfileSpec.ciphers = ModernTLSProfileSpec.ciphers)
    ∧ GetTLSProfileSpec (some (.preset "Intermediate"))
        = .ok IntermediateTLSProfileSpec
    ∧ GetTLSProfileSpec (some (.custom IntermediateTLSProfileSpec))
        = .ok IntermediateTLSProfileSpec
    ∧ tlsSpecEqual IntermediateTLSProfileSpec IntermediateTLSProfileSpec = true
    ∧ reconcile ⟨IntermediateTLSProfileSpec, []⟩
        (.found (some (.custom IntermediateTLSProfileSpec)))
        = (⟨IntermediateTLSProfileSpec, []⟩, .success)
    ∧ reconcile ⟨IntermediateTLSProfileSpec, []⟩
        (.found (some (.preset "Intermediate")))
        = (⟨IntermediateTLSProfileSpec, []⟩, .success) :=
  tls_comparator_semantic_equality OldTLSProfileSpec ModernTLSProfileSpec
    IntermediateTLSProfileSpec "Intermediate" [] (by rfl)

/-- C3: reconciliation is idempotent for no-op resyncs: any number of
cycles whose selector resolves to a specification equal to the stored
one leaves the watcher state unchanged and invokes the callback zero
times. -/
theorem tls_noop_resync_idempotent
    (n : Nat) (st : WatcherState) (sel : Option TLSSecurityProfile)
    (spec : TLSProfileSpec)
    (hres : GetTLSProfileSpec sel = .ok spec)
    (heq : tlsSpecEqual st.current spec = true) :
    reconcileSeq st (List.replicate n (.found sel)) = st := by
  induction n with
  | zero => rfl
  | succ n ih =>
      rw [List.replicate_succ]
      show reconcileSeq (reconcile st (.found sel)).1 (List.replicate n (.found sel)) = st
      have hstep : (reconcile st (.found sel)).1 = st := by
        simp [reconcile, hres, criticalSection, heq]
      rw [hstep, ih]

/-- Witness for C3: three resyncs of the Intermediate preset against a
watcher already holding the Intermediate specification change nothing. -/
theorem tls_noop_resync_idempotent_witness :
    reconcileSeq (initWatcher IntermediateTLSProfileSpec)
        (List.replicate 3 (.found (some (.preset "Intermediate"))))
      = initWatcher IntermediateTLSProfileSpec :=
  tls_noop_resync_idempotent 3 (initWatcher IntermediateTLSProfileSpec)
    (some (.preset "Intermediate")) IntermediateTLSProfileSpec
    (by rfl) (by decide)

/-- C4: an absent selector resolves exactly to the Intermediate preset's
canonical specification, and starting from the absent-selector resolution
and then explicitly setting the Intermediate preset never invokes the
callback. -/
theorem tls_absent_selector_default :
    GetTLSProfileSpec none = .ok IntermediateTLSProfileSpec
    ∧ GetTLSProfileSpec (some (.preset "Intermediate")) = GetTLSProfileSpec none
    ∧ (reconcileSeq (initWatcher IntermediateTLSProfileSpec)
          [.found none, .found (some (.preset "Intermediate"))]).events = [] := by
  refine ⟨rfl, rfl, ?_⟩
  decide

/-- C5: an explicit-override selector resolves to its own fields verbatim,
and in the concrete scenario starting from the Intermediate resolution
and switching to the two-cipher TLS 1.3 custom profile, exactly one
callback occurs, from the Intermediate specification to the custom one. -/
theorem tls_custom_resolves_verbatim :
    (∀ s : TLSProfileSpec, GetTLSProfileSpec (some (.custom s)) = .ok s)
    ∧ (reconcileSeq (initWatcher IntermediateTLSProfileSpec)
          [.found (some (.custom customTLS13Spec))]).events
      = [(IntermediateTLSProfileSpec, customTLS13Spec)] := by
  refine ⟨fun s => rfl, ?_⟩
  decide

/-- C6: over every fetch sequence, the delivered events form a chain: each
event is a real change under the comparator (previous never equals
current), each event's previous value is the specification stored at the
moment of its swap (the arrival value of the preceding event), and the
first event's previous value is the caller-supplied initial
specification. -/
theorem tls_change_events_chain (init : TLSProfileSpec) (fs : List FetchResult) :
    chainFrom init (reconcileSeq (initWatcher init) fs).events
      (reconcileSeq (initWatcher init) fs).current := by
  obtain ⟨d, he, hc⟩ := reconcileSeq_chain fs (initWatcher init)
  have hd : (reconcileSeq (initWatcher init) fs).events = d := by
    rw [he]; rfl
  rw [hd]
  exact hc

/-- C7: resolving a preset identifier outside the known enumeration fails
with the UnknownPreset resolution error, and the reconciliation cycle
surfaces it as a failure eligible for retry while leaving the watcher
state untouched and invoking no callback. -/
theorem tls_unknown_preset_error
    (name : String) (st : WatcherState)
    (hOld : ¬ name = "Old") (hInt : ¬ name = "Intermediate")
    (hMod : ¬ name = "Modern") :
    GetTLSProfileSpec (some (.preset name)) = .error (.unknownPreset name)
    ∧ reconcile st (.found (some (.preset name))) = (st, .failure) := by
  have hl : TLSProfiles name = none := by
    simp [TLSProfiles, hOld, hInt, hMod]
  exact ⟨by simp [GetTLSProfileSpec, hl], by simp [reconcile, GetTLSProfileSpec, hl]⟩

/-- Witness for C7: the identifier Bogus is outside the enumeration; its
resolution fails and the cycle leaves a Modern-holding watcher intact. -/
theorem tls_unknown_preset_error_witness :
    GetTLSProfileSpec (some (.preset "Bogus")) = .error (.unknownPreset "Bogus")
    ∧ reconcile (initWatcher ModernTLSProfileSpec) (.found (some (.preset "Bogus")))
      = (initWatcher ModernTLSProfileSpec, .failure) :=
  tls_unknown_preset_error "Bogus" (initWatcher ModernTLSProfileSpec)
    (by decide) (by decide) (by decide)

/-- C8: a cycle observing a missing singleton resource is a quiet success:
the state is returned unchanged, no callback is recorded, and the
outcome reported to the framework is success, not an error. -/
theorem tls_absent_resource_quiet_success (st : WatcherState) :
    reconcile st .absent = (st, .success) := rfl

/-- C9: with the read-compare-write section taken as one atomic action (as
the design mandates), two racing reconciliations serialize: when both
resolved the same next value the second pass is the identity, so the
transition is swapped and notified at most once; and in general the
second pass re-compares against the now-current value, notifying only a
change departing from it. -/
theorem tls_concurrent_reconcile_serialized
    (st : WatcherState) (n1 n2 : TLSProfileSpec) :
    criticalSection n1 (criticalSection n1 st) = criticalSection n1 st
    ∧ (tlsSpecEqual (criticalSection n1 st).current n2 = true →
        criticalSection n2 (criticalSection n1 st) = criticalSection n1 st)
    ∧ (tlsSpecEqual (criticalSection n1 st).current n2 = false →
        (criticalSection n2 (criticalSection n1 st)).events
          = (criticalSection n1 st).events
            ++ [((criticalSection n1 st).current, n2)]
        ∧ (criticalSection n2 (criticalSection n1 st)).current = n2) := by
  have hgen : ∀ (st' : WatcherState) (m : TLSProfileSpec),
      (tlsSpecEqual st'.current m = true → criticalSection m st' = st')
      ∧ (tlsSpecEqual st'.current m = false →
          (criticalSection m st').events = st'.events ++ [(st'.current, m)]
          ∧ (criticalSection m st').current = m) := by
    intro st' m
    constructor
    · intro h
      simp [criticalSection, h]
    · intro h
      simp [criticalSection, h]
  refine ⟨?_, (hgen (criticalSection n1 st) n2).1, (hgen (criticalSection n1 st) n2).2⟩
  by_cases h : tlsSpecEqual st.current n1 = true
  · rw [(hgen st n1).1 h, (hgen st n1).1 h]
  · rw [Bool.not_eq_true] at h
    exact (hgen (criticalSection n1 st) n1).1 (by rw [((hgen st n1).2 h).2]; exact tlsSpecEqual_refl n1)

/-- Witness for C9: two racing cycles that both resolved Modern against an
Intermediate-holding watcher collapse to one notification, and a second
cycle that resolved Intermediate after the swap to Modern notifies the
Modern-to-Intermediate change it re-computed against the new current. -/
theorem tls_concurrent_reconcile_serialized_witness :
    criticalSection ModernTLSProfileSpec
        (criticalSection ModernTLSProfileSpec (initWatcher IntermediateTLSProfileSpec))
      = criticalSection ModernTLSProfileSpec (initWatcher IntermediateTLSProfileSpec)
    ∧ (criticalSection IntermediateTLSProfileSpec
          (criticalSection ModernTLSProfileSpec
            (initWatcher IntermediateTLSProfileSpec))).events
        = (criticalSection ModernTLSProfileSpec
            (initWatcher IntermediateTLSProfileSpec)).events
          ++ [((criticalSection ModernTLSProfileSpec
                (initWatcher IntermediateTLSProfileSpec)).current,
               IntermediateTLSProfileSpec)] :=
  ⟨(tls_concurrent_reconcile_serialized (initWatcher IntermediateTLSProfileSpec)
      ModernTLSProfileSpec IntermediateTLSProfileSpec).1,
   ((tls_concurrent_reconcile_serialized (initWatcher IntermediateTLSProfileSpec)
      ModernTLSProfileSpec IntermediateTLSProfileSpec).2.2 (by decide)).1⟩

/-- C10: GetCRDManifestsPath fails exactly when the module-directory lookup
fails (the go tool fails, or its output trims to empty) or the joined
path does not exist; on success it returns exactly the join of the
module directory with the segments; and GetGoModuleDirectory never
returns an empty directory with success. -/
theorem envtest_crd_manifests_path_spec
    (env : GoEnv) (module : String) (segs : List String) :
    (∀ d, GetGoModuleDirectory env module = .ok d → ¬ d = "")
    ∧ ((∃ e, GetGoModuleDirectory env module = .error e)
        ↔ env.goListDir module = none
          ∨ ∃ out, env.goListDir module = some out ∧ goTrimSpace out = "")
    ∧ (∀ e, GetGoModuleDirectory env module = .error e →
        GetCRDManifestsPath env module segs = .error e)
    ∧ (∀ d, GetGoModuleDirectory env module = .ok d →
        (env.pathExists (filepathJoin (d :: segs)) = true →
          GetCRDManifestsPath env module segs = .ok (filepathJoin (d :: segs)))
        ∧ (env.pathExists (filepathJoin (d :: segs)) = false →
          GetCRDManifestsPath env module segs
            = .error ("path " ++ filepathJoin (d :: segs) ++ " does not exist"))) := by
  refine ⟨?_, ?_, ?_, ?_⟩
  · intro d hd he
    rcases hout : env.goListDir module with _ | out
    · simp [GetGoModuleDirectory, hout] at hd
    · simp [GetGoModuleDirectory, hout] at hd
      by_cases ht : goTrimSpace out = ""
      · simp [ht] at hd
      · simp [ht] at hd
        exact ht (he ▸ hd)
  · constructor
    · rintro ⟨e, he⟩
      rcases hout : env.goListDir module with _ | out
      · exact Or.inl rfl
      · refine Or.inr ⟨out, rfl, ?_⟩
        simp [GetGoModuleDirectory, hout] at he
        by_cases ht : goTrimSpace out = ""
        · exact ht
        · simp [ht] at he
    · rintro (hout | ⟨out, hout, ht⟩)
      · exact ⟨"failed to get module directory for " ++ module,
          by simp [GetGoModuleDirectory, hout]⟩
      · exact ⟨"empty module directory returned for " ++ module,
          by simp [GetGoModuleDirectory, hout, ht]⟩
  · intro e he
    simp [GetCRDManifestsPath, he]
  · intro d hd
    constructor
    · intro hex
      simp [GetCRDManifestsPath, hd, hex]
    · intro hex
      simp [GetCRDManifestsPath, hd, hex]

/-- Witness for C10: in the sample environment the module directory is the
trimmed go tool output and the joined manifests path is returned. -/
theorem envtest_crd_manifests_path_spec_witness :
    ¬ "/cache/mod" = ""
    ∧ GetCRDManifestsPath sampleGoEnv "github.com/openshift/api" ["config", "v1"]
      = .ok "/cache/mod/config/v1" :=
  ⟨(envtest_crd_manifests_path_spec sampleGoEnv "github.com/openshift/api"
      ["config", "v1"]).1 "/cache/mod" (by rfl),
   ((envtest_crd_manifests_path_spec sampleGoEnv "github.com/openshift/api"
      ["config", "v1"]).2.2.2 "/cache/mod" (by rfl)).1 (by rfl)⟩

end ControllerRuntimeCommon
